import Mathlib

-- Verification of the rs3f connect/disconnect orchestrator (src/rs3f/__init__.py)
-- against its natural-language specification.  The Python module is shallowly
-- embedded: pure helpers become Lean functions, OS state and external process
-- results become an explicit `World` of oracles, and side effects are recorded
-- in an event trace so that ordering properties can be stated and proved.

set_option maxHeartbeats 1600000
set_option maxRecDepth 4096

namespace Rs3f

-- ## SHA-256 (embedding of `hashlib.sha256(...).hexdigest()` used by `get_mount_key`)

/-- Truncate a natural number to a 32-bit word. -/
def w32 (n : Nat) : Nat := n % 4294967296

/-- Right rotation of a 32-bit word by `n` bits. -/
def rotr (n x : Nat) : Nat := w32 ((x >>> n) ||| (x <<< (32 - n)))

/-- SHA-256 big sigma 0. -/
def bsig0 (x : Nat) : Nat := rotr 2 x ^^^ rotr 13 x ^^^ rotr 22 x

/-- SHA-256 big sigma 1. -/
def bsig1 (x : Nat) : Nat := rotr 6 x ^^^ rotr 11 x ^^^ rotr 25 x

/-- SHA-256 small sigma 0. -/
def ssig0 (x : Nat) : Nat := rotr 7 x ^^^ rotr 18 x ^^^ (x >>> 3)

/-- SHA-256 small sigma 1. -/
def ssig1 (x : Nat) : Nat := rotr 17 x ^^^ rotr 19 x ^^^ (x >>> 10)

/-- SHA-256 choice function (the complement is taken within 32 bits). -/
def chF (x y z : Nat) : Nat := (x &&& y) ^^^ ((x ^^^ 4294967295) &&& z)

/-- SHA-256 majority function. -/
def majF (x y z : Nat) : Nat := (x &&& y) ^^^ (x &&& z) ^^^ (y &&& z)

/-- The 64 SHA-256 round constants, written in decimal. -/
def K256 : List Nat :=
  [1116352408, 1899447441, 3049323471, 3921009573, 961987163,
   1508970993, 2453635748, 2870763221, 3624381080, 310598401,
   607225278, 1426881987, 1925078388, 2162078206, 2614888103,
   3248222580, 3835390401, 4022224774, 264347078, 604807628,
   770255983, 1249150122, 1555081692, 1996064986, 2554220882,
   2821834349, 2952996808, 3210313671, 3336571891, 3584528711,
   113926993, 338241895, 666307205, 773529912, 1294757372,
   1396182291, 1695183700, 1986661051, 2177026350, 2456956037,
   2730485921, 2820302411, 3259730800, 3345764771, 3516065817,
   3600352804, 4094571909, 275423344, 430227734, 506948616,
   659060556, 883997877, 958139571, 1322822218, 1537002063,
   1747873779, 1955562222, 2024104815, 2227730452, 2361852424,
   2428436474, 2756734187, 3204031479, 3329325298]

/-- The eight 32-bit words of a SHA-256 state. -/
structure Hash8 where
  a : Nat
  b : Nat
  c : Nat
  d : Nat
  e : Nat
  f : Nat
  g : Nat
  h : Nat

/-- The SHA-256 initial hash value, written in decimal. -/
def initH : Hash8 :=
  ⟨1779033703, 3144134277, 1013904242, 2773480762,
   1359893119, 2600822924, 528734635, 1541459225⟩

/-- Group a byte list into big-endian 32-bit words. -/
def bytesToWords : List Nat → List Nat
  | b0 :: b1 :: b2 :: b3 :: rest =>
      w32 ((b0 <<< 24) ||| (b1 <<< 16) ||| (b2 <<< 8) ||| b3) :: bytesToWords rest
  | _ => []

/-- Next word of the SHA-256 message schedule, from the words produced so far. -/
def schedNext (ws : List Nat) : Nat :=
  let n := ws.length
  w32 (ssig1 (ws.getD (n - 2) 0) + ws.getD (n - 7) 0 + ssig0 (ws.getD (n - 15) 0) + ws.getD (n - 16) 0)

/-- Extend the message schedule by `k` further words. -/
def schedExtend : List Nat → Nat → List Nat
  | ws, 0 => ws
  | ws, k + 1 => schedExtend (ws ++ [schedNext ws]) k

/-- One SHA-256 compression round for a round constant paired with a schedule word. -/
def compressRound (st : Hash8) (kw : Nat × Nat) : Hash8 :=
  let t1 := w32 (st.h + bsig1 st.e + chF st.e st.f st.g + kw.1 + kw.2)
  let t2 := w32 (bsig0 st.a + majF st.a st.b st.c)
  ⟨w32 (t1 + t2), st.a, st.b, st.c, w32 (st.d + t1), st.e, st.f, st.g⟩

/-- Process one 64-byte block of the padded message. -/
def compressBlock (st : Hash8) (block : List Nat) : Hash8 :=
  let ws := schedExtend (bytesToWords block) 48
  let t := (K256.zip ws).foldl compressRound st
  ⟨w32 (st.a + t.a), w32 (st.b + t.b), w32 (st.c + t.c), w32 (st.d + t.d),
   w32 (st.e + t.e), w32 (st.f + t.f), w32 (st.g + t.g), w32 (st.h + t.h)⟩

/-- The 8 bytes of a 64-bit big-endian length field. -/
def u64be (n : Nat) : List Nat :=
  [(n >>> 56) &&& 255, (n >>> 48) &&& 255, (n >>> 40) &&& 255, (n >>> 32) &&& 255,
   (n >>> 24) &&& 255, (n >>> 16) &&& 255, (n >>> 8) &&& 255, n &&& 255]

/-- SHA-256 padding: append 0x80, zeros to 56 mod 64, then the bit length. -/
def sha256pad (m : List Nat) : List Nat :=
  m ++ [128] ++ List.replicate ((119 - m.length % 64) % 64) 0
    ++ u64be ((8 * m.length) % 18446744073709551616)

/-- Split a nonempty byte list into successive 64-byte blocks; the fuel argument
makes the recursion structural so that the kernel can evaluate it. -/
def chunksAux : Nat → List Nat → List (List Nat)
  | _, [] => []
  | 0, _ => []
  | fuel + 1, b :: rest => (b :: rest).take 64 :: chunksAux fuel ((b :: rest).drop 64)

/-- Split a byte list into successive 64-byte blocks. -/
def chunks (l : List Nat) : List (List Nat) := chunksAux l.length l

/-- The SHA-256 state after absorbing a whole byte message. -/
def sha256words (m : List Nat) : Hash8 :=
  (chunks (sha256pad m)).foldl compressBlock initH

/-- Big-endian bytes of one 32-bit word. -/
def wordBytes (w : Nat) : List Nat :=
  [(w >>> 24) &&& 255, (w >>> 16) &&& 255, (w >>> 8) &&& 255, w &&& 255]

/-- The 32 digest bytes of a SHA-256 state. -/
def digestBytes (st : Hash8) : List Nat :=
  wordBytes st.a ++ wordBytes st.b ++ wordBytes st.c ++ wordBytes st.d ++
  wordBytes st.e ++ wordBytes st.f ++ wordBytes st.g ++ wordBytes st.h

/-- The sixteen lowercase hexadecimal digits. -/
def hexAlphabet : List Char := ("0123456789abcdef").toList

/-- The hexadecimal digit for a value below 16. -/
def hexChar (n : Nat) : Char := hexAlphabet.getD n '0'

/-- Whether a character is a lowercase hexadecimal digit. -/
def isHexChar (c : Char) : Bool := hexAlphabet.contains c

/-- Two hexadecimal characters of one byte, as Python `%02x` for values below 256. -/
def byteHexChars (b : Nat) : List Char := [hexChar (b / 16), hexChar (b % 16)]

/-- The 64 characters of `hashlib.sha256(m).hexdigest()`. -/
def sha256hexChars (m : List Nat) : List Char :=
  ((digestBytes (sha256words m)).map byteHexChars).flatten

/-- UTF-8 encoding of a single character, used for Python `str.encode()`. -/
def utf8Bytes (c : Char) : List Nat :=
  let n := c.toNat
  if n < 128 then [n]
  else if n < 2048 then [192 + n / 64, 128 + n % 64]
  else if n < 65536 then [224 + n / 4096, 128 + n / 64 % 64, 128 + n % 64]
  else [240 + n / 262144, 128 + n / 4096 % 64, 128 + n / 64 % 64, 128 + n % 64]

/-- UTF-8 bytes of a string, the embedding of Python `str.encode()`. -/
def strBytes (s : String) : List Nat := (s.toList.map utf8Bytes).flatten

-- ## Python byte-string helpers

/-- Whether a character is one of the six ASCII whitespace bytes that Python
`bytes.split()` splits on. -/
def isAsciiWs (c : Char) : Bool :=
  c == ' ' || c == '\t' || c == '\n' || c == '\r' || c == '\x0b' || c == '\x0c'

/-- Split on a separator character keeping empty pieces, as Python `bytes.split(sep)`. -/
def splitOnChar (sep : Char) : List Char → List (List Char)
  | [] => [[]]
  | c :: rest =>
    if c == sep then [] :: splitOnChar sep rest
    else
      match splitOnChar sep rest with
      | [] => [[c]]
      | t :: ts => (c :: t) :: ts

/-- Helper for `wsTokens`, carrying the current token in reverse. -/
def wsTokensAux : List Char → List Char → List (List Char)
  | acc, [] => if acc.isEmpty then [] else [acc.reverse]
  | acc, c :: rest =>
    if isAsciiWs c then
      if acc.isEmpty then wsTokensAux [] rest
      else acc.reverse :: wsTokensAux [] rest
    else wsTokensAux (c :: acc) rest

/-- Whitespace tokenization dropping empty tokens, as Python `bytes.split()`
with no argument. -/
def wsTokens (l : List Char) : List (List Char) := wsTokensAux [] l

/-- Whether `needle` occurs at the head of `hay`. -/
def headMatches : List Char → List Char → Bool
  | [], _ => true
  | _ :: _, [] => false
  | a :: as, b :: bs => a == b && headMatches as bs

/-- Whether `needle` occurs anywhere in `hay`, as the Python `in` test on bytes. -/
def containsSub : List Char → List Char → Bool
  | [], needle => needle.isEmpty
  | c :: rest, needle => headMatches needle (c :: rest) || containsSub rest needle

/-- Strip leading and trailing ASCII whitespace. -/
def stripWs (l : List Char) : List Char :=
  ((l.dropWhile isAsciiWs).reverse.dropWhile isAsciiWs).reverse

/-- Numeric value of a nonempty all-digit character list. -/
def digitsVal (ds : List Char) : Option Nat :=
  if ds.isEmpty then none
  else if ds.all Char.isDigit then some (ds.foldl (fun a c => a * 10 + (c.toNat - 48)) 0)
  else none

/-- Python `int()` on a byte string: strip whitespace, optional sign, digits;
`none` models the ValueError raised on anything else. -/
def pyBytesToInt (l : List Char) : Option Int :=
  match stripWs l with
  | '-' :: ds => (digitsVal ds).map (fun n => -(n : Int))
  | '+' :: ds => (digitsVal ds).map (fun n => (n : Int))
  | ds => (digitsVal ds).map (fun n => (n : Int))

-- ## Data model: errors, process results, events, and the OS world

/-- The exception kinds the embedded module can raise.  The first six mirror the
exception classes of the source; `indexError` and `valueError` stand for the
Python built-in exceptions that can escape from the listing parser. -/
inductive PyErr where
  | networkingError (msg : String)
  | invalidSSHCredentials (msg : String)
  | invalidPassword (msg : String)
  | environmentNotSetError (msg : String)
  | binaryMissingError (msg : String)
  | rs3fRuntimeError (msg : String)
  | indexError
  | valueError
deriving DecidableEq

/-- Result of one external process invocation (`subprocess.run` with `check=False`). -/
structure ProcResult where
  returncode : Int
  stdout : String
  stderr : String
deriving DecidableEq

/-- Observable side effects of the orchestrator, in order of occurrence. -/
inductive Event where
  | runSsh
  | runSftp
  | runSshfs
  | runGocryptfsInit
  | runGocryptfs
  | runFusermount (path : String)
  | writeFile (path : String) (contents : String)
  | chmod (path : String) (mode : Nat)
  | makedirs (path : String) (mode : Nat)
  | rmdir (path : String)
  | disconnectCall (mountpoint : String)
deriving DecidableEq

/-- The ambient OS state and the results the external tools would return, all
modelled as oracles: the embedded functions read them but never change them. -/
structure World where
  xdgRuntimeDir : Option String
  pathVar : Option String
  pathExists : String → Bool
  isMount : String → Bool
  inParentListing : String → Bool
  abspath : String → String
  localUsername : String
  sshRun : ProcResult
  sftpRun : ProcResult
  sshfsRun : ProcResult
  gocryptfsInitRun : ProcResult
  gocryptfsRun : ProcResult
  fusermountRun : String → ProcResult

/-- An action's outcome (a result or a raised exception) together with the trace
of events it performed; a raising action keeps the events preceding the raise. -/
abbrev Act (α : Type) := Except PyErr α × List Event

/-- Sequencing: on success continue, accumulating traces; a raise short-circuits. -/
def bindE {α β : Type} (r : Act α) (f : α → Act β) : Act β :=
  match r with
  | (.error e, t) => (.error e, t)
  | (.ok a, t) => ((f a).1, t ++ (f a).2)

/-- An action that returns a value and does nothing. -/
def pureE {α : Type} (a : α) : Act α := (.ok a, [])

/-- An action that raises. -/
def raiseE {α : Type} (e : PyErr) : Act α := (.error e, [])

/-- Run a pure fallible computation (no events). -/
def liftE {α : Type} (r : Except PyErr α) : Act α := (r, [])

/-- Record one event. -/
def emitE (ev : Event) : Act Unit := (.ok (), [ev])

-- ## The embedded module functions

/-- Embedding of `os.path.join` for the joins performed by the module (the second
argument is always relative here). -/
def pjoin (a b : String) : String := a ++ "/" ++ b

/-- `get_mount_key` (source lines 83-86): the first 8 hex characters of the
SHA-256 hexdigest of the absolute mountpoint path. -/
def get_mount_key (w : World) (mountpoint : String) : String :=
  String.mk ((sha256hexChars (strBytes (w.abspath mountpoint))).take 8)

/-- `get_runtime_dir` (source lines 89-96). -/
def get_runtime_dir (w : World) : Except PyErr String :=
  match w.xdgRuntimeDir with
  | none => .error (.environmentNotSetError ("$XDG_RUNTIME_DIR is not set, cannot determine runtime path"))
  | some runtime_dir => .ok runtime_dir

/-- `get_raw_mount_path` (source lines 99-108). -/
def get_raw_mount_path (w : World) (mountpoint : String) : Except PyErr String :=
  let mount_key := get_mount_key w mountpoint
  match get_runtime_dir w with
  | .error e => .error e
  | .ok runtime_dir => .ok (pjoin runtime_dir ("rs3f_" ++ mount_key))

/-- `check_binary_available` (source lines 111-119). -/
def check_binary_available (w : World) (name : String) : Except PyErr Bool :=
  match w.pathVar with
  | none => .error (.environmentNotSetError ("$PATH is not set"))
  | some paths =>
    .ok ((splitOnChar ':' paths.toList).any (fun p => w.pathExists (pjoin (String.mk p) name)))

/-- The literal searched for in the reachability probe's stderr. -/
def permissionDenied : List Char := ("Permission denied").toList

/-- `_check_ssh_server_is_up` (source lines 122-149): run the restricted ssh
probe and require the permission-denied response in its stderr; the exit code is
never consulted. -/
def check_ssh_server_is_up (w : World) : Act Unit :=
  ((if containsSub w.sshRun.stderr.toList permissionDenied then .ok ()
    else .error (.networkingError ("Could not reach SSH server"))), [.runSsh])

/-- The scan loop of `_get_remote_uid` (source lines 187-194), applied to the
lines after the first: `parts[-1]` on a token-less line is an IndexError;
the line whose last token is `gocryptfs_root` yields `int(parts[2])`. -/
def scan_listing : List (List Char) → Except PyErr (Option Int)
  | [] => .ok none
  | line :: rest =>
    let parts := wsTokens line
    match parts.getLast? with
    | none => .error .indexError
    | some name =>
      if name = ("gocryptfs_root").toList then
        match parts[2]? with
        | none => .error .indexError
        | some col =>
          match pyBytesToInt col with
          | none => .error .valueError
          | some n => .ok (some n)
      else scan_listing rest

/-- `_get_remote_uid` (source lines 152-201). -/
def get_remote_uid (w : World) : Act Int :=
  ((if w.sftpRun.returncode ≠ 0 then
      .error (.invalidSSHCredentials ("Invalid SSH username or password."))
    else
      match scan_listing ((splitOnChar '\n' w.sftpRun.stdout.toList).drop 1) with
      | .error e => .error e
      | .ok none =>
        .error (.rs3fRuntimeError ("Could not find gocryptfs_root directory, is the volume a valid rs3f volume?"))
      | .ok (some n) => .ok n), [.runSftp])

/-- `_umount_fuse_fs` (source lines 363-387): classification of one layer.
`inParentListing` models `name in os.listdir(parent)`; a listed path that cannot
be stated or is an active mount point gets the unmount tool, a listed plain
directory is just removed, an unlisted path is skipped. -/
def umount_fuse_fs (w : World) (mountpoint : String) (display_name : String) : Act Unit :=
  let abspath := w.abspath mountpoint
  if w.inParentListing abspath then
    if !w.pathExists abspath || w.isMount abspath then
      if (w.fusermountRun abspath).returncode ≠ 0 then
        (.error (.rs3fRuntimeError ("Couldn't unmount the " ++ display_name ++ " volume")),
         [.runFusermount abspath])
      else (.ok (), [.runFusermount abspath, .rmdir abspath])
    else (.ok (), [.rmdir abspath])
  else (.ok (), [])

/-- `disconnect` (source lines 390-403): encrypted layer first, then the raw layer. -/
def disconnect (w : World) (mountpoint : String) : Act Unit :=
  bindE (liftE (check_binary_available w ("fusermount"))) fun avail =>
  if !avail then raiseE (.binaryMissingError ("FUSE is not installed"))
  else
    bindE (umount_fuse_fs w mountpoint ("gocryptfs")) fun _ =>
    bindE (liftE (get_raw_mount_path w mountpoint)) fun raw_mount_path =>
    umount_fuse_fs w raw_mount_path ("raw")

/-- The uid-file template `UIDFILE` (source lines 29-32), already formatted. -/
def UIDFILE (local_username : String) (remote_uid : Int) : String :=
  local_username ++ ":" ++ toString remote_uid ++ "\nroot:0\n"

/-- The gid-file constant `GIDFILE` (source lines 35-38). -/
def GIDFILE : String := "users:999\nroot:0\n"

/-- The tail of `connect` from the reachability check onwards (source lines
240-360), with the raw mount path already computed.  `password` stands for the
string-or-callable argument: a callable's failure propagates as its error. -/
def connectRest (w : World) (mountpoint : String) (allow_init : Bool)
    (password : Except PyErr String) (raw_mount_path : String) : Act Unit :=
  bindE (check_ssh_server_is_up w) fun _ =>
  bindE (get_remote_uid w) fun remote_uid =>
  bindE (liftE (get_runtime_dir w)) fun rt1 =>
  let uidfile_path := pjoin rt1 ("uidfile_" ++ get_mount_key w mountpoint)
  bindE (liftE (get_runtime_dir w)) fun rt2 =>
  let gidfile_path := pjoin rt2 ("gidfile_" ++ get_mount_key w mountpoint)
  bindE (emitE (.writeFile uidfile_path (UIDFILE w.localUsername remote_uid))) fun _ =>
  bindE (emitE (.writeFile gidfile_path GIDFILE)) fun _ =>
  bindE (emitE (.chmod uidfile_path 0o600)) fun _ =>
  bindE (emitE (.chmod gidfile_path 0o600)) fun _ =>
  bindE (emitE (.makedirs raw_mount_path 0o700)) fun _ =>
  bindE (emitE .runSshfs) fun _ =>
  if w.sshfsRun.returncode ≠ 0 then
    raiseE (.rs3fRuntimeError ("Could not mount raw volume (but server is up and credentials are valid). Maybe the network is unstable?"))
  else
    bindE (if !w.pathExists (pjoin (pjoin raw_mount_path ("gocryptfs_root")) ("gocryptfs.conf")) then
             if allow_init then
               bindE (emitE .runGocryptfsInit) fun _ =>
               if w.gocryptfsInitRun.returncode ≠ 0 then
                 raiseE (.rs3fRuntimeError ("Could not initialize volume"))
               else pureE ()
             else raiseE (.rs3fRuntimeError ("Volume is not initialized"))
           else pureE ()) fun _ =>
    bindE (liftE password) fun _password_str =>
    bindE (emitE (.makedirs mountpoint 0o700)) fun _ =>
    bindE (emitE .runGocryptfs) fun _ =>
    if w.gocryptfsRun.returncode ≠ 0 then
      if w.gocryptfsRun.returncode = 12 ∨ w.gocryptfsRun.returncode = 22 then
        raiseE (.invalidPassword ("Invalid or empty gocryptfs password"))
      else raiseE (.rs3fRuntimeError ("Couldn't mount gocryptfs"))
    else pureE ()

/-- `connect` (source lines 204-360): binary checks, stale-state detection and
cleanup, then the mount sequence `connectRest`. -/
def connect (w : World) (mountpoint : String) (allow_init : Bool)
    (password : Except PyErr String) : Act Unit :=
  bindE (liftE (check_binary_available w ("sshfs"))) fun sshfsAvail =>
  if !sshfsAvail then raiseE (.binaryMissingError ("SSHFS is not installed"))
  else
    bindE (liftE (check_binary_available w ("gocryptfs"))) fun gocryptfsAvail =>
    if !gocryptfsAvail then raiseE (.binaryMissingError ("Gocryptfs is not installed"))
    else
      let needsCleanup1 := w.pathExists mountpoint
      bindE (liftE (get_raw_mount_path w mountpoint)) fun raw_mount_path =>
      bindE (if needsCleanup1 || w.pathExists raw_mount_path then
               bindE (emitE (.disconnectCall mountpoint)) fun _ => disconnect w mountpoint
             else pureE ()) fun _ =>
      connectRest w mountpoint allow_init password raw_mount_path

-- ## Concrete test worlds (used by the witnesses)

/-- Shorthand for a process result. -/
def procRes (rc : Int) (out err : String) : ProcResult := ⟨rc, out, err⟩

/-- A healthy world: environment set, tools installed, server reachable, a valid
volume owned by uid 1000, no stale state, every external tool succeeding. -/
def wEnv : World where
  xdgRuntimeDir := some "/run/user/1000"
  pathVar := some "/usr/bin:/bin"
  pathExists := fun p =>
    containsSub p.toList (("bin").toList) || containsSub p.toList (("gocryptfs.conf").toList)
  isMount := fun _ => false
  inParentListing := fun _ => false
  abspath := fun s => s
  localUsername := "alice"
  sshRun := procRes 255 "" "alice@host: Permission denied (publickey,password)."
  sftpRun := procRes 0 "sftp> ls -ln\ndrwxr-xr-x    2 1000     999      4096 Jan  1 00:00 gocryptfs_root\n" ""
  sshfsRun := procRes 0 "" ""
  gocryptfsInitRun := procRes 0 "" ""
  gocryptfsRun := procRes 0 "" ""
  fusermountRun := fun _ => procRes 0 "" ""

/-- Same observable filesystem as `wEnv` but a different local user: used to show
the mount key ignores everything except the absolute path. -/
def wEnv2 : World := { wEnv with localUsername := "bob" }

/-- A world with neither runtime-directory nor search-path environment values. -/
def wNoEnv : World := { wEnv with xdgRuntimeDir := none, pathVar := none }

/-- A world whose reachability probe produced a connection-refused stderr. -/
def wRefused : World :=
  { wEnv with sshRun := procRes 255 "" "ssh: connect to host host port 22: Connection refused" }

/-- A world whose listing ends with a newline and holds no volume root:
the scan hits the empty final line. -/
def wTrailing : World := { wEnv with sftpRun := procRes 0 "sftp> ls -ln\n" "" }

/-- A world whose listing has one ordinary line, then the trailing empty line. -/
def wTrailing2 : World := { wEnv with sftpRun := procRes 0 "sftp> ls -ln\ntotal 0\n" "" }

/-- A world where the user-visible mountpoint still exists as a stale directory. -/
def wStale : World :=
  { wEnv with
    pathExists := fun p =>
      p == "/mnt/vol" || containsSub p.toList (("bin").toList)
        || containsSub p.toList (("gocryptfs.conf").toList)
    inParentListing := fun p => p == "/mnt/vol" }

/-- A world where the mountpoint is an active mount and the unmount tool fails. -/
def wBusy : World :=
  { wEnv with
    pathExists := fun p => p == "/mnt/vol" || containsSub p.toList (("bin").toList)
    inParentListing := fun p => p == "/mnt/vol"
    isMount := fun p => p == "/mnt/vol"
    fusermountRun := fun _ => procRes 1 "" "umount: busy" }

/-- A world where the encryption tool reports a wrong password (exit code 12). -/
def wBadPw : World := { wEnv with gocryptfsRun := procRes 12 "" "" }

/-- A world where the encryption tool fails with a generic exit code 1. -/
def wBadMount : World := { wEnv with gocryptfsRun := procRes 1 "" "" }

-- ## General lemmas about traces

/-- The path a teardown event acts on, if any. -/
def eventPath : Event → Option String
  | .runFusermount p => some p
  | .rmdir p => some p
  | _ => none

/-- Membership in the trace of a sequenced action. -/
theorem mem_bindE {α β : Type} {r : Act α} {f : α → Act β} {e : Event}
    (he : e ∈ (bindE r f).2) : e ∈ r.2 ∨ ∃ a, r.1 = .ok a ∧ e ∈ (f a).2 := by
  rcases r with ⟨res, t⟩
  cases res with
  | error err => exact .inl he
  | ok a =>
    simp only [bindE, List.mem_append] at he
    rcases he with h | h
    · exact .inl h
    · exact .inr ⟨a, rfl, h⟩

/-- The second projection distributes over a conditional. -/
theorem snd_ite {α : Type} (c : Prop) [Decidable c] (x y : Act α) :
    (if c then x else y).2 = if c then x.2 else y.2 := by
  split <;> rfl

/-- The first projection distributes over a conditional. -/
theorem fst_ite {α : Type} (c : Prop) [Decidable c] (x y : Act α) :
    (if c then x else y).1 = if c then x.1 else y.1 := by
  split <;> rfl

/-- Every event of one layer teardown acts on that layer's absolute path. -/
theorem umount_events_path (w : World) (p dn : String) :
    ∀ e ∈ (umount_fuse_fs w p dn).2, eventPath e = some (w.abspath p) := by
  intro e he
  unfold umount_fuse_fs at he
  simp only [snd_ite] at he
  split at he
  · split at he
    · split at he
      · simp only [List.mem_singleton] at he; subst he; rfl
      · simp only [List.mem_cons, List.not_mem_nil, or_false] at he
        rcases he with he | he <;> subst he <;> rfl
    · simp only [List.mem_singleton] at he; subst he; rfl
  · simp at he

/-- Every event of `disconnect` is a teardown event (carries a path). -/
theorem disconnect_events_path (w : World) (mp : String) :
    ∀ e ∈ (disconnect w mp).2, (eventPath e).isSome := by
  intro e he
  unfold disconnect at he
  rcases mem_bindE he with h | ⟨a, _, h⟩
  · simp [liftE] at h
  · simp only [snd_ite] at h
    split at h
    · simp [raiseE] at h
    · rcases mem_bindE h with h2 | ⟨_, _, h2⟩
      · rw [umount_events_path w mp ("gocryptfs") e h2]; rfl
      · rcases mem_bindE h2 with h3 | ⟨raw, _, h3⟩
        · simp [liftE] at h3
        · rw [umount_events_path w raw ("raw") e h3]; rfl

-- ## Hexdigest facts

/-- A SHA-256 hexdigest always has 64 characters. -/
theorem sha256hexChars_length (m : List Nat) : (sha256hexChars m).length = 64 := rfl

/-- `hexChar` always lands in the hexadecimal alphabet. -/
theorem isHexChar_hexChar (n : Nat) : isHexChar (hexChar n) = true := by
  by_cases h : n < 16
  · interval_cases n <;> rfl
  · have h16 : hexAlphabet.length ≤ n := by
      have hl : hexAlphabet.length = 16 := rfl
      omega
    rw [hexChar, List.getD_eq_default _ _ h16]
    rfl

/-- Every character of a SHA-256 hexdigest is a hexadecimal digit. -/
theorem sha256hexChars_hex (m : List Nat) : ∀ c ∈ sha256hexChars m, isHexChar c = true := by
  have hall : ∀ bs : List Nat, ∀ c ∈ (bs.map byteHexChars).flatten, isHexChar c = true := by
    intro bs
    induction bs with
    | nil => intro c hc; simp at hc
    | cons b rest ih =>
      intro c hc
      simp only [List.map_cons, List.flatten_cons, List.mem_append] at hc
      rcases hc with hc | hc
      · simp only [byteHexChars, List.mem_cons, List.not_mem_nil, or_false] at hc
        rcases hc with hc | hc <;> (subst hc; exact isHexChar_hexChar _)
      · exact ih c hc
  exact fun c hc => hall (digestBytes (sha256words m)) c hc

-- ## Claim C7

/-- C7: `get_mount_key` is a pure function of the canonicalized absolute path:
two calls (even in different worlds) whose absolute forms agree return the same
key, and the key is always the 8-character prefix of the SHA-256 hexdigest of
that absolute path, all characters hexadecimal. -/
theorem C7_mount_key_pure (w1 w2 : World) (p q : String)
    (h : w1.abspath p = w2.abspath q) :
    get_mount_key w1 p = get_mount_key w2 q
  ∧ (get_mount_key w1 p).length = 8
  ∧ (get_mount_key w1 p).data = (sha256hexChars (strBytes (w1.abspath p))).take 8
  ∧ ∀ c ∈ (get_mount_key w1 p).data, isHexChar c = true := by
  refine ⟨by rw [get_mount_key, get_mount_key, h], ?_, rfl, ?_⟩
  · show (String.mk ((sha256hexChars (strBytes (w1.abspath p))).take 8)).length = 8
    simp [String.length, List.length_take, sha256hexChars_length]
  · intro c hc
    exact sha256hexChars_hex _ c (List.take_subset _ _ hc)

/-- Witness for C7: two worlds differing in everything but the path canonicalizer
give the same 8-character key for the same mountpoint. -/
theorem C7_mount_key_pure_witness :
    get_mount_key wEnv "/mnt/vol" = get_mount_key wEnv2 "/mnt/vol"
  ∧ (get_mount_key wEnv "/mnt/vol").length = 8 :=
  ⟨(C7_mount_key_pure wEnv wEnv2 "/mnt/vol" "/mnt/vol" rfl).1,
   (C7_mount_key_pure wEnv wEnv2 "/mnt/vol" "/mnt/vol" rfl).2.1⟩

-- ## Claim C9

/-- C9: `get_raw_mount_path` raises the environment-not-set error exactly when
the runtime-directory variable is absent and otherwise returns the runtime
directory joined with the `rs3f_`-prefixed mount key; `check_binary_available`
raises the environment-not-set error when the search-path variable is unset. -/
theorem C9_env_dependencies (w : World) (mp nm rd : String) :
    (w.xdgRuntimeDir = none →
      get_raw_mount_path w mp =
        .error (.environmentNotSetError ("$XDG_RUNTIME_DIR is not set, cannot determine runtime path")))
  ∧ (w.xdgRuntimeDir = some rd →
      get_raw_mount_path w mp = .ok (pjoin rd ("rs3f_" ++ get_mount_key w mp)))
  ∧ (w.pathVar = none →
      check_binary_available w nm = .error (.environmentNotSetError ("$PATH is not set"))) := by
  refine ⟨fun h => ?_, fun h => ?_, fun h => ?_⟩ <;>
    simp [get_raw_mount_path, get_runtime_dir, check_binary_available, h]

/-- Witness for C9 at concrete worlds with the variables unset and set. -/
theorem C9_env_dependencies_witness :
    get_raw_mount_path wNoEnv "/mnt/vol" =
      .error (.environmentNotSetError ("$XDG_RUNTIME_DIR is not set, cannot determine runtime path"))
  ∧ get_raw_mount_path wEnv "/mnt/vol" =
      .ok (pjoin "/run/user/1000" ("rs3f_" ++ get_mount_key wEnv "/mnt/vol"))
  ∧ check_binary_available wNoEnv "sshfs" = .error (.environmentNotSetError ("$PATH is not set")) :=
  ⟨(C9_env_dependencies wNoEnv "/mnt/vol" "sshfs" "x").1 rfl,
   (C9_env_dependencies wEnv "/mnt/vol" "sshfs" "/run/user/1000").2.1 rfl,
   (C9_env_dependencies wNoEnv "/mnt/vol" "sshfs" "x").2.2 rfl⟩

-- ## Claim C6

/-- C6: the reachability check returns normally exactly when the probe's stderr
contains the permission-denied response, raises `NetworkingError` on any other
stderr, and ignores the probe's exit code entirely. -/
theorem C6_reachability_classification (w : World) :
    (containsSub w.sshRun.stderr.toList permissionDenied = true →
      check_ssh_server_is_up w = (.ok (), [Event.runSsh]))
  ∧ (containsSub w.sshRun.stderr.toList permissionDenied = false →
      check_ssh_server_is_up w =
        (.error (.networkingError ("Could not reach SSH server")), [Event.runSsh]))
  ∧ (∀ rc : Int, check_ssh_server_is_up
        { w with sshRun := procRes rc w.sshRun.stdout w.sshRun.stderr } =
      check_ssh_server_is_up w) := by
  refine ⟨fun h => ?_, fun h => ?_, fun rc => ?_⟩
  · unfold check_ssh_server_is_up
    rw [if_pos h]
  · unfold check_ssh_server_is_up
    have h' : ¬(containsSub w.sshRun.stderr.toList permissionDenied = true) := by
      rw [h]; exact Bool.false_ne_true
    rw [if_neg h']
  · simp [check_ssh_server_is_up, procRes]

/-- Witness for C6: a permission-denied stderr passes, a connection-refused
stderr raises, at concrete worlds. -/
theorem C6_reachability_classification_witness :
    check_ssh_server_is_up wEnv = (.ok (), [Event.runSsh])
  ∧ check_ssh_server_is_up wRefused =
      (.error (.networkingError ("Could not reach SSH server")), [Event.runSsh]) :=
  ⟨(C6_reachability_classification wEnv).1 rfl,
   (C6_reachability_classification wRefused).2.1 rfl⟩

-- ## Claim C5 (code bug) and claim C10

/-- C5 (code bug): on a zero-exit listing whose output ends with a newline and
holds no `gocryptfs_root` entry, `_get_remote_uid` raises an uncaught IndexError
on the empty final line instead of the promised "not a valid volume"
RS3FRuntimeError. -/
theorem C5_uid_classification_bug :
    wTrailing.sftpRun.returncode = 0 ∧
    get_remote_uid wTrailing = (.error .indexError, [Event.runSftp]) := ⟨rfl, rfl⟩

/-- If the scanned lines reach a token-less line before any `gocryptfs_root`
line, the scan raises IndexError. -/
theorem scan_listing_empty_line (post : List (List Char)) :
    ∀ pre : List (List Char),
      (∀ l ∈ pre, wsTokens l ≠ [] ∧
        (wsTokens l).getLast? ≠ some (("gocryptfs_root").toList)) →
      ∀ emptyLine, wsTokens emptyLine = [] →
      scan_listing (pre ++ emptyLine :: post) = .error .indexError := by
  intro pre
  induction pre with
  | nil =>
    intro _ emptyLine hempty
    simp [scan_listing, hempty]
  | cons l rest ih =>
    intro hpre emptyLine hempty
    obtain ⟨hne, hlast⟩ := hpre l (by simp)
    have hrest : ∀ x ∈ rest, wsTokens x ≠ [] ∧
        (wsTokens x).getLast? ≠ some (("gocryptfs_root").toList) :=
      fun x hx => hpre x (by simp [hx])
    rcases hl : (wsTokens l).getLast? with _ | nm
    · exact absurd (List.getLast?_eq_none_iff.mp hl) hne
    · simp only [List.cons_append, scan_listing, hl]
      rw [if_neg]
      · exact ih hrest emptyLine hempty
      · intro hEq
        exact hlast (by rw [hl, hEq])

/-- C10: a zero-exit listing that, after its first line, reaches a token-less
(empty or whitespace-only) line before any `gocryptfs_root` line makes
`_get_remote_uid` raise an uncaught IndexError — for instance any output with a
trailing newline and no volume root — so the promised "not a valid volume"
error is never reached on such outputs. -/
theorem C10_empty_line_indexerror (w : World) (pre post : List (List Char))
    (emptyLine : List Char)
    (hrc : w.sftpRun.returncode = 0)
    (hsplit : (splitOnChar '\n' w.sftpRun.stdout.toList).drop 1 = pre ++ emptyLine :: post)
    (hempty : wsTokens emptyLine = [])
    (hpre : ∀ l ∈ pre, wsTokens l ≠ [] ∧
      (wsTokens l).getLast? ≠ some (("gocryptfs_root").toList)) :
    get_remote_uid w = (.error .indexError, [Event.runSftp]) := by
  unfold get_remote_uid
  rw [hsplit, scan_listing_empty_line post pre hpre emptyLine hempty]
  simp [hrc]

/-- Witness for C10: the listing output `sftp> ls -ln`, `total 0` and a trailing
newline (no volume root) yields the IndexError. -/
theorem C10_empty_line_indexerror_witness :
    get_remote_uid wTrailing2 = (.error .indexError, [Event.runSftp]) :=
  C10_empty_line_indexerror wTrailing2 [("total 0").toList] [] []
    rfl rfl rfl (by decide)

-- ## More trace machinery

/-- If a list decomposes as `u ++ v` where `g` does not occur in `u`, then in any
decomposition at an occurrence of `g` the part before `g` contains all of `u`. -/
theorem mem_left_of_decomp {α : Type} {g s : α} (u : List α) :
    ∀ v l1 l2 : List α, u ++ v = l1 ++ g :: l2 → g ∉ u → s ∈ u → s ∈ l1 := by
  induction u with
  | nil => intro v l1 l2 _ _ hs; exact absurd hs (List.not_mem_nil s)
  | cons x u' ih =>
    intro v l1 l2 heq hg hs
    cases l1 with
    | nil =>
      rw [List.cons_append, List.nil_append] at heq
      injection heq with hx _
      exact absurd (by rw [← hx]; exact List.mem_cons_self x u') hg
    | cons y l1' =>
      rw [List.cons_append, List.cons_append] at heq
      injection heq with hx htl
      rcases List.mem_cons.mp hs with rfl | hs'
      · rw [hx]; exact List.mem_cons_self y l1'
      · exact List.mem_cons_of_mem y
          (ih v l1' l2 htl (fun hgg => hg (List.mem_cons_of_mem x hgg)) hs')

/-- With the unmount tool available, `disconnect` is the two-layer teardown. -/
theorem disconnect_eq (w : World) (mp : String)
    (hav : check_binary_available w ("fusermount") = .ok true) :
    disconnect w mp =
      bindE (umount_fuse_fs w mp ("gocryptfs")) fun _ =>
        bindE (liftE (get_raw_mount_path w mp)) fun raw_mount_path =>
          umount_fuse_fs w raw_mount_path ("raw") := by
  unfold disconnect
  rw [hav]
  simp [bindE, liftE]

/-- The mount sequence's first event is always the reachability probe. -/
theorem connectRest_trace_head (w : World) (mp : String) (ai : Bool)
    (pw : Except PyErr String) (raw : String) :
    ∃ t, (connectRest w mp ai pw raw).2 = Event.runSsh :: t := by
  unfold connectRest check_ssh_server_is_up
  by_cases h : containsSub w.sshRun.stderr.toList permissionDenied = true
  · rw [if_pos h]; exact ⟨_, rfl⟩
  · rw [if_neg h]; exact ⟨[], rfl⟩

/-- The mount sequence never emits a cleanup marker. -/
theorem connectRest_no_disconnectCall (w : World) (mp : String) (ai : Bool)
    (pw : Except PyErr String) (raw m : String) :
    Event.disconnectCall m ∉ (connectRest w mp ai pw raw).2 := by
  intro hmem
  unfold connectRest at hmem
  rcases mem_bindE hmem with h | ⟨_, _, h⟩
  · simp [check_ssh_server_is_up] at h
  rcases mem_bindE h with h | ⟨_, _, h⟩
  · simp [get_remote_uid] at h
  rcases mem_bindE h with h | ⟨rt1, _, h⟩
  · simp [liftE] at h
  rcases mem_bindE h with h | ⟨rt2, _, h⟩
  · simp [liftE] at h
  rcases mem_bindE h with h | ⟨_, _, h⟩
  · simp [emitE] at h
  rcases mem_bindE h with h | ⟨_, _, h⟩
  · simp [emitE] at h
  rcases mem_bindE h with h | ⟨_, _, h⟩
  · simp [emitE] at h
  rcases mem_bindE h with h | ⟨_, _, h⟩
  · simp [emitE] at h
  rcases mem_bindE h with h | ⟨_, _, h⟩
  · simp [emitE] at h
  rcases mem_bindE h with h | ⟨_, _, h⟩
  · simp [emitE] at h
  rw [snd_ite] at h
  split at h
  · simp [raiseE] at h
  rcases mem_bindE h with h | ⟨_, _, h⟩
  · rw [snd_ite] at h
    split at h
    · rw [snd_ite] at h
      split at h
      · rcases mem_bindE h with h2 | ⟨_, _, h2⟩
        · simp [emitE] at h2
        · rw [snd_ite] at h2
          split at h2 <;> simp [raiseE, pureE] at h2
      · simp [raiseE] at h
    · simp [pureE] at h
  rcases mem_bindE h with h | ⟨_, _, h⟩
  · simp [liftE] at h
  rcases mem_bindE h with h | ⟨_, _, h⟩
  · simp [emitE] at h
  rcases mem_bindE h with h | ⟨_, _, h⟩
  · simp [emitE] at h
  rw [snd_ite] at h
  split at h
  · rw [snd_ite] at h
    split at h <;> simp [raiseE] at h
  · simp [pureE] at h

/-- Once the preflight steps succeed, the mount sequence's trace starts with the
probe, the listing, both identity files (written then chmodded to 0600), the raw
mount directory creation, and the raw mount invocation, in that order. -/
theorem connectRest_prefix_eq (w : World) (mp : String) (ai : Bool)
    (pw : Except PyErr String) (raw rd : String) (uid : Int)
    (hssh : containsSub w.sshRun.stderr.toList permissionDenied = true)
    (hsftp : w.sftpRun.returncode = 0)
    (hscan : scan_listing ((splitOnChar '\n' w.sftpRun.stdout.toList).drop 1) = .ok (some uid))
    (hx : w.xdgRuntimeDir = some rd) :
    ∃ tail, (connectRest w mp ai pw raw).2 =
      Event.runSsh :: Event.runSftp ::
      Event.writeFile (pjoin rd ("uidfile_" ++ get_mount_key w mp)) (UIDFILE w.localUsername uid) ::
      Event.writeFile (pjoin rd ("gidfile_" ++ get_mount_key w mp)) GIDFILE ::
      Event.chmod (pjoin rd ("uidfile_" ++ get_mount_key w mp)) 0o600 ::
      Event.chmod (pjoin rd ("gidfile_" ++ get_mount_key w mp)) 0o600 ::
      Event.makedirs raw 0o700 :: Event.runSshfs :: tail := by
  unfold connectRest check_ssh_server_is_up get_remote_uid
  rw [if_pos hssh]
  simp only [bindE, liftE, emitE, get_runtime_dir, hx, hsftp, hscan]
  norm_num

/-- With both tools available and the runtime directory known, `connect` is the
stale-state cleanup followed by the mount sequence. -/
theorem connect_eq (w : World) (mp : String) (ai : Bool) (pw : Except PyErr String)
    (rd : String)
    (h1 : check_binary_available w ("sshfs") = .ok true)
    (h2 : check_binary_available w ("gocryptfs") = .ok true)
    (hx : w.xdgRuntimeDir = some rd) :
    connect w mp ai pw =
      bindE (if (w.pathExists mp || w.pathExists (pjoin rd ("rs3f_" ++ get_mount_key w mp))) = true then
               bindE (emitE (.disconnectCall mp)) fun _ => disconnect w mp
             else pureE ()) fun _ =>
        connectRest w mp ai pw (pjoin rd ("rs3f_" ++ get_mount_key w mp)) := by
  unfold connect
  rw [h1, h2]
  simp [bindE, liftE, get_raw_mount_path, get_runtime_dir, hx]

/-- Every run of `connect` either performs only cleanup-flavoured events (the
cleanup marker and teardown events) or decomposes into such a prefix followed by
the mount sequence's trace. -/
theorem connect_trace_cases (w : World) (mp : String) (ai : Bool) (pw : Except PyErr String) :
    (∀ e ∈ (connect w mp ai pw).2, e = Event.disconnectCall mp ∨ (eventPath e).isSome) ∨
    (∃ pre raw, (∀ e ∈ pre, e = Event.disconnectCall mp ∨ (eventPath e).isSome) ∧
      (connect w mp ai pw).2 = pre ++ (connectRest w mp ai pw raw).2) := by
  unfold connect
  rcases hb1 : check_binary_available w ("sshfs") with e1 | b1
  · left; intro e he; simp [bindE, liftE, hb1] at he
  cases b1
  · left; intro e he; simp [bindE, liftE, hb1, raiseE] at he
  rcases hb2 : check_binary_available w ("gocryptfs") with e2 | b2
  · left; intro e he; simp [bindE, liftE, hb1, hb2] at he
  cases b2
  · left; intro e he; simp [bindE, liftE, hb1, hb2, raiseE] at he
  rcases hr : get_raw_mount_path w mp with er | rawP
  · left; intro e he; simp [bindE, liftE, hb1, hb2, hr] at he
  by_cases hc : (w.pathExists mp || w.pathExists rawP) = true
  · rcases hd : disconnect w mp with ⟨dres, dt⟩
    cases dres with
    | error de =>
      left
      intro e he
      simp only [bindE, liftE, emitE, hb1, hb2, hr, hc, if_true, hd] at he
      rcases List.mem_cons.mp (by simpa using he) with h | h
      · exact .inl h
      · exact .inr (disconnect_events_path w mp e (by rw [hd]; exact h))
    | ok da =>
      right
      refine ⟨Event.disconnectCall mp :: dt, rawP, ?_, ?_⟩
      · intro e he
        rcases List.mem_cons.mp he with h | h
        · exact .inl h
        · exact .inr (disconnect_events_path w mp e (by rw [hd]; exact h))
      · simp only [bindE, liftE, emitE, hb1, hb2, hr, hc, if_true, hd]
        simp
  · right
    refine ⟨[], rawP, by simp, ?_⟩
    simp only [bindE, liftE, emitE, pureE, hb1, hb2, hr, hc, if_false]
    simp

/-- The mount sequence either never invokes the encrypted mount, or the raw
mount succeeded and the trace splits after a prefix holding the raw mount
invocation and no encrypted mount invocation. -/
theorem connectRest_split (w : World) (mp : String) (ai : Bool)
    (pw : Except PyErr String) (raw : String) :
    Event.runGocryptfs ∉ (connectRest w mp ai pw raw).2 ∨
    (w.sshfsRun.returncode = 0 ∧
     ∃ u v, (connectRest w mp ai pw raw).2 = u ++ v ∧
       Event.runSshfs ∈ u ∧ Event.runGocryptfs ∉ u) := by
  by_cases hssh : containsSub w.sshRun.stderr.toList permissionDenied = true
  case neg =>
    left
    intro hmem
    unfold connectRest at hmem
    rcases mem_bindE hmem with h | ⟨a, ha, h⟩
    · simp [check_ssh_server_is_up] at h
    · unfold check_ssh_server_is_up at ha
      rw [if_neg hssh] at ha
      simp at ha
  by_cases hsftp : w.sftpRun.returncode = 0
  case neg =>
    left
    intro hmem
    unfold connectRest at hmem
    rcases mem_bindE hmem with h | ⟨_, _, h⟩
    · simp [check_ssh_server_is_up] at h
    rcases mem_bindE h with h | ⟨a, ha, h⟩
    · simp [get_remote_uid] at h
    · unfold get_remote_uid at ha
      rw [if_pos hsftp] at ha
      simp at ha
  rcases hscan : scan_listing ((splitOnChar '\n' w.sftpRun.stdout.toList).drop 1) with er | ov
  · left
    intro hmem
    unfold connectRest at hmem
    rcases mem_bindE hmem with h | ⟨_, _, h⟩
    · simp [check_ssh_server_is_up] at h
    rcases mem_bindE h with h | ⟨a, ha, h⟩
    · simp [get_remote_uid] at h
    · unfold get_remote_uid at ha
      rw [if_neg (by simp [hsftp]), hscan] at ha
      simp at ha
  rcases ov with _ | uid
  · left
    intro hmem
    unfold connectRest at hmem
    rcases mem_bindE hmem with h | ⟨_, _, h⟩
    · simp [check_ssh_server_is_up] at h
    rcases mem_bindE h with h | ⟨a, ha, h⟩
    · simp [get_remote_uid] at h
    · unfold get_remote_uid at ha
      rw [if_neg (by simp [hsftp]), hscan] at ha
      simp at ha
  rcases hx : w.xdgRuntimeDir with _ | rd
  · left
    intro hmem
    unfold connectRest at hmem
    rcases mem_bindE hmem with h | ⟨_, _, h⟩
    · simp [check_ssh_server_is_up] at h
    rcases mem_bindE h with h | ⟨_, _, h⟩
    · simp [get_remote_uid] at h
    rcases mem_bindE h with h | ⟨rt1, ha, h⟩
    · simp [liftE] at h
    · unfold liftE get_runtime_dir at ha
      rw [hx] at ha
      simp at ha
  by_cases hm : w.sshfsRun.returncode = 0
  case neg =>
    left
    intro hmem
    unfold connectRest at hmem
    rcases mem_bindE hmem with h | ⟨_, _, h⟩
    · simp [check_ssh_server_is_up] at h
    rcases mem_bindE h with h | ⟨_, _, h⟩
    · simp [get_remote_uid] at h
    rcases mem_bindE h with h | ⟨rt1, _, h⟩
    · simp [liftE] at h
    rcases mem_bindE h with h | ⟨rt2, _, h⟩
    · simp [liftE] at h
    rcases mem_bindE h with h | ⟨_, _, h⟩
    · simp [emitE] at h
    rcases mem_bindE h with h | ⟨_, _, h⟩
    · simp [emitE] at h
    rcases mem_bindE h with h | ⟨_, _, h⟩
    · simp [emitE] at h
    rcases mem_bindE h with h | ⟨_, _, h⟩
    · simp [emitE] at h
    rcases mem_bindE h with h | ⟨_, _, h⟩
    · simp [emitE] at h
    rcases mem_bindE h with h | ⟨_, _, h⟩
    · simp [emitE] at h
    rw [snd_ite, if_pos hm] at h
    simp [raiseE] at h
  · right
    refine ⟨hm, ?_⟩
    obtain ⟨tail, htail⟩ := connectRest_prefix_eq w mp ai pw raw rd uid hssh hsftp hscan hx
    refine ⟨[Event.runSsh, Event.runSftp,
      Event.writeFile (pjoin rd ("uidfile_" ++ get_mount_key w mp)) (UIDFILE w.localUsername uid),
      Event.writeFile (pjoin rd ("gidfile_" ++ get_mount_key w mp)) GIDFILE,
      Event.chmod (pjoin rd ("uidfile_" ++ get_mount_key w mp)) 0o600,
      Event.chmod (pjoin rd ("gidfile_" ++ get_mount_key w mp)) 0o600,
      Event.makedirs raw 0o700, Event.runSshfs], tail, ?_, ?_, ?_⟩
    · simpa using htail
    · simp
    · simp

-- ## Claim C3

/-- C3: `_umount_fuse_fs` classifies a layer's path three ways — absent from the
parent listing: skip with no unmount-tool call and no raise; present as a plain
directory that is not an active mount point: remove the directory without the
unmount tool; an active mount point: invoke the unmount tool, raising exactly
when it exits nonzero.  Hence `disconnect` on a mountpoint where neither
layer's path exists invokes no unmount tool and does not raise. -/
theorem C3_teardown_classification (w : World) (p dn mp rd : String) :
    (w.inParentListing (w.abspath p) = false →
      umount_fuse_fs w p dn = (.ok (), []))
  ∧ (w.inParentListing (w.abspath p) = true →
     w.pathExists (w.abspath p) = true →
     w.isMount (w.abspath p) = false →
      umount_fuse_fs w p dn = (.ok (), [.rmdir (w.abspath p)]))
  ∧ (w.inParentListing (w.abspath p) = true →
     w.isMount (w.abspath p) = true →
      ((w.fusermountRun (w.abspath p)).returncode ≠ 0 →
        umount_fuse_fs w p dn =
          (.error (.rs3fRuntimeError ("Couldn't unmount the " ++ dn ++ " volume")),
           [.runFusermount (w.abspath p)]))
      ∧ ((w.fusermountRun (w.abspath p)).returncode = 0 →
        umount_fuse_fs w p dn =
          (.ok (), [.runFusermount (w.abspath p), .rmdir (w.abspath p)])))
  ∧ (check_binary_available w ("fusermount") = .ok true →
     w.xdgRuntimeDir = some rd →
     w.inParentListing (w.abspath mp) = false →
     w.inParentListing (w.abspath (pjoin rd ("rs3f_" ++ get_mount_key w mp))) = false →
      disconnect w mp = (.ok (), [])) := by
  have hskip : ∀ q dnn, w.inParentListing (w.abspath q) = false →
      umount_fuse_fs w q dnn = (.ok (), []) := by
    intro q dnn h
    unfold umount_fuse_fs
    rw [if_neg (by simp [h])]
  refine ⟨hskip p dn, ?_, ?_, ?_⟩
  · intro h1 h2 h3
    unfold umount_fuse_fs
    rw [if_pos h1, if_neg (by simp [h2, h3])]
  · intro h1 h2
    constructor
    · intro hf
      unfold umount_fuse_fs
      rw [if_pos h1, if_pos (by simp [h2]), if_pos hf]
    · intro hf
      unfold umount_fuse_fs
      rw [if_pos h1, if_pos (by simp [h2]), if_neg (by simp [hf])]
  · intro hav hx h1 h2
    rw [disconnect_eq w mp hav]
    have hraw : get_raw_mount_path w mp = .ok (pjoin rd ("rs3f_" ++ get_mount_key w mp)) := by
      simp [get_raw_mount_path, get_runtime_dir, hx]
    rw [hskip mp ("gocryptfs") h1, hraw]
    simp [bindE, liftE, hskip _ _ h2]

/-- Witness for C3 at concrete worlds covering all four classifications. -/
theorem C3_teardown_classification_witness :
    umount_fuse_fs wEnv "/mnt/vol" "gocryptfs" = (.ok (), [])
  ∧ umount_fuse_fs wStale "/mnt/vol" "gocryptfs" = (.ok (), [Event.rmdir "/mnt/vol"])
  ∧ umount_fuse_fs wBusy "/mnt/vol" "gocryptfs" =
      (.error (.rs3fRuntimeError ("Couldn't unmount the gocryptfs volume")),
       [Event.runFusermount "/mnt/vol"])
  ∧ disconnect wEnv "/mnt/vol" = (.ok (), []) :=
  ⟨(C3_teardown_classification wEnv "/mnt/vol" "gocryptfs" "/mnt/vol" "x").1 rfl,
   (C3_teardown_classification wStale "/mnt/vol" "gocryptfs" "/mnt/vol" "x").2.1 rfl rfl rfl,
   ((C3_teardown_classification wBusy "/mnt/vol" "gocryptfs" "/mnt/vol" "x").2.2.1 rfl rfl).1
     (by decide),
   (C3_teardown_classification wEnv "/mnt/vol" "gocryptfs" "/mnt/vol" "/run/user/1000").2.2.2
     rfl rfl rfl rfl⟩

-- ## Claim C1

/-- C1: with the required tools installed and the runtime directory known,
`connect` invokes a full disconnect on the mountpoint if and only if the
user-visible mountpoint path or the computed raw mount path already exists on
disk; when it does, the cleanup opens the trace, and when both are absent the
trace is exactly the mount sequence, beginning directly with the reachability
probe and containing no disconnect call. -/
theorem C1_stale_state_cleanup (w : World) (mp : String) (ai : Bool)
    (pw : Except PyErr String) (rd : String)
    (h1 : check_binary_available w ("sshfs") = .ok true)
    (h2 : check_binary_available w ("gocryptfs") = .ok true)
    (hx : w.xdgRuntimeDir = some rd) :
    (Event.disconnectCall mp ∈ (connect w mp ai pw).2 ↔
      (w.pathExists mp || w.pathExists (pjoin rd ("rs3f_" ++ get_mount_key w mp))) = true)
  ∧ ((w.pathExists mp || w.pathExists (pjoin rd ("rs3f_" ++ get_mount_key w mp))) = true →
      ∃ t, (connect w mp ai pw).2 = Event.disconnectCall mp :: t)
  ∧ ((w.pathExists mp || w.pathExists (pjoin rd ("rs3f_" ++ get_mount_key w mp))) = false →
      (connect w mp ai pw).2 =
        (connectRest w mp ai pw (pjoin rd ("rs3f_" ++ get_mount_key w mp))).2 ∧
      ∃ t, (connect w mp ai pw).2 = Event.runSsh :: t) := by
  have hceq := connect_eq w mp ai pw rd h1 h2 hx
  by_cases hc : (w.pathExists mp || w.pathExists (pjoin rd ("rs3f_" ++ get_mount_key w mp))) = true
  · have htr : ∃ t, (connect w mp ai pw).2 = Event.disconnectCall mp :: t := by
      rw [hceq, if_pos hc]
      rcases hd : disconnect w mp with ⟨dres, dt⟩
      cases dres with
      | error de => exact ⟨dt, by simp [bindE, emitE, hd]⟩
      | ok da =>
        exact ⟨dt ++ (connectRest w mp ai pw (pjoin rd ("rs3f_" ++ get_mount_key w mp))).2,
          by simp [bindE, emitE, hd]⟩
    refine ⟨⟨fun _ => hc, fun _ => ?_⟩, fun _ => htr, fun hcf => absurd hcf (by simp [hc])⟩
    obtain ⟨t, ht⟩ := htr
    rw [ht]
    exact List.mem_cons_self _ _
  · have htr : (connect w mp ai pw).2 =
        (connectRest w mp ai pw (pjoin rd ("rs3f_" ++ get_mount_key w mp))).2 := by
      rw [hceq, if_neg hc]
      simp [bindE, pureE]
    refine ⟨⟨fun hmem => ?_, fun hcc => absurd hcc hc⟩, fun hcc => absurd hcc hc,
      fun _ => ⟨htr, ?_⟩⟩
    · rw [htr] at hmem
      exact absurd hmem (connectRest_no_disconnectCall w mp ai pw _ mp)
    · rw [htr]
      exact connectRest_trace_head w mp ai pw _

/-- Witness for C1: a clean target performs no disconnect, a stale mountpoint
triggers one, at concrete worlds. -/
theorem C1_stale_state_cleanup_witness :
    (Event.disconnectCall "/mnt/vol" ∈ (connect wEnv "/mnt/vol" false (.ok "secret")).2 ↔
      (wEnv.pathExists "/mnt/vol" ||
        wEnv.pathExists (pjoin "/run/user/1000" ("rs3f_" ++ get_mount_key wEnv "/mnt/vol"))) = true)
  ∧ ∃ t, (connect wStale "/mnt/vol" false (.ok "secret")).2 = Event.disconnectCall "/mnt/vol" :: t :=
  ⟨(C1_stale_state_cleanup wEnv "/mnt/vol" false (.ok "secret") "/run/user/1000"
      rfl rfl rfl).1,
   (C1_stale_state_cleanup wStale "/mnt/vol" false (.ok "secret") "/run/user/1000"
      rfl rfl rfl).2.1 rfl⟩

-- ## Claim C2

/-- C2: teardown and bring-up respect the layer order.  `disconnect`'s trace
splits into a first part acting only on the encrypted layer's absolute path and
a second acting only on the raw layer's, the second nonempty only if the
encrypted teardown returned normally; if the unmount tool exits nonzero on the
encrypted layer, `disconnect` raises at once and its whole trace is that single
unmount invocation, so the raw layer is never touched.  Dually, `connect`
reaches the encrypted mount invocation only if the raw mount tool exited zero,
and every occurrence of the encrypted mount invocation in the trace is preceded
by the raw mount invocation. -/
theorem C2_layer_ordering (w : World) (mp : String) (ai : Bool)
    (pw : Except PyErr String) (rd : String) :
    (w.xdgRuntimeDir = some rd →
     check_binary_available w ("fusermount") = .ok true →
      ∃ t1 t2, (disconnect w mp).2 = t1 ++ t2
        ∧ (∀ e ∈ t1, eventPath e = some (w.abspath mp))
        ∧ (∀ e ∈ t2, eventPath e = some (w.abspath (pjoin rd ("rs3f_" ++ get_mount_key w mp))))
        ∧ (t2 ≠ [] → (umount_fuse_fs w mp ("gocryptfs")).1 = .ok ()))
  ∧ (check_binary_available w ("fusermount") = .ok true →
     w.inParentListing (w.abspath mp) = true →
     (!w.pathExists (w.abspath mp) || w.isMount (w.abspath mp)) = true →
     (w.fusermountRun (w.abspath mp)).returncode ≠ 0 →
      disconnect w mp =
        (.error (.rs3fRuntimeError ("Couldn't unmount the gocryptfs volume")),
         [Event.runFusermount (w.abspath mp)]))
  ∧ (Event.runGocryptfs ∈ (connect w mp ai pw).2 → w.sshfsRun.returncode = 0)
  ∧ (∀ l1 l2, (connect w mp ai pw).2 = l1 ++ Event.runGocryptfs :: l2 →
      Event.runSshfs ∈ l1) := by
  refine ⟨fun hx hav => ?_, fun hav h1 h2 hf => ?_, fun hmem => ?_, fun l1 l2 hdec => ?_⟩
  · rw [disconnect_eq w mp hav]
    have hraw : get_raw_mount_path w mp = .ok (pjoin rd ("rs3f_" ++ get_mount_key w mp)) := by
      simp [get_raw_mount_path, get_runtime_dir, hx]
    rcases hu : umount_fuse_fs w mp ("gocryptfs") with ⟨ures, ut⟩
    cases ures with
    | error e =>
      refine ⟨ut, [], by simp [bindE, hu], ?_, by simp, by simp⟩
      intro ev hev
      exact umount_events_path w mp ("gocryptfs") ev (by rw [hu]; exact hev)
    | ok a =>
      refine ⟨ut, (umount_fuse_fs w (pjoin rd ("rs3f_" ++ get_mount_key w mp)) ("raw")).2,
        by simp [bindE, liftE, hu, hraw], ?_, ?_, ?_⟩
      · intro ev hev
        exact umount_events_path w mp ("gocryptfs") ev (by rw [hu]; exact hev)
      · intro ev hev
        exact umount_events_path w _ ("raw") ev hev
      · intro _
        rfl
  · have hue : umount_fuse_fs w mp ("gocryptfs") =
        (.error (.rs3fRuntimeError ("Couldn't unmount the gocryptfs volume")),
         [Event.runFusermount (w.abspath mp)]) := by
      unfold umount_fuse_fs
      rw [if_pos h1, if_pos h2, if_pos hf]
      rfl
    rw [disconnect_eq w mp hav, hue]
    simp [bindE]
  · rcases connect_trace_cases w mp ai pw with hall | ⟨pre, raw, hpre, heq⟩
    · rcases hall _ hmem with h | h
      · simp at h
      · simp [eventPath] at h
    · rw [heq] at hmem
      rcases List.mem_append.mp hmem with h | h
      · rcases hpre _ h with h' | h'
        · simp at h'
        · simp [eventPath] at h'
      · rcases connectRest_split w mp ai pw raw with hno | ⟨hrc, _⟩
        · exact absurd h hno
        · exact hrc
  · have hmem : Event.runGocryptfs ∈ (connect w mp ai pw).2 := by
      rw [hdec]
      simp
    rcases connect_trace_cases w mp ai pw with hall | ⟨pre, raw, hpre, heq⟩
    · rcases hall _ hmem with h | h
      · simp at h
      · simp [eventPath] at h
    · rcases connectRest_split w mp ai pw raw with hno | ⟨hrc, u, v, hBeq, hmemU, hnoU⟩
      · rw [heq] at hmem
        rcases List.mem_append.mp hmem with h | h
        · rcases hpre _ h with h' | h'
          · simp at h'
          · simp [eventPath] at h'
        · exact absurd h hno
      · have htr : (pre ++ u) ++ v = l1 ++ Event.runGocryptfs :: l2 := by
          rw [List.append_assoc, ← hBeq, ← heq, hdec]
        have hgno : Event.runGocryptfs ∉ pre ++ u := by
          intro hg
          rcases List.mem_append.mp hg with hg | hg
          · rcases hpre _ hg with h' | h'
            · simp at h'
            · simp [eventPath] at h'
          · exact hnoU hg
        exact mem_left_of_decomp (pre ++ u) v l1 l2 htr hgno
          (List.mem_append.mpr (Or.inr hmemU))

/-- Witness for C2: a world with a busy encrypted mount shows the immediate
raise with a single unmount invocation, and a healthy world's connect trace has
its encrypted mount invocation after a successful raw mount. -/
theorem C2_layer_ordering_witness :
    disconnect wBusy "/mnt/vol" =
      (.error (.rs3fRuntimeError ("Couldn't unmount the gocryptfs volume")),
       [Event.runFusermount "/mnt/vol"])
  ∧ (Event.runGocryptfs ∈ (connect wEnv "/mnt/vol" false (.ok "secret")).2 →
      wEnv.sshfsRun.returncode = 0) :=
  ⟨(C2_layer_ordering wBusy "/mnt/vol" false (.ok "secret") "/run/user/1000").2.1
      rfl rfl rfl (by decide),
   (C2_layer_ordering wEnv "/mnt/vol" false (.ok "secret") "/run/user/1000").2.2.1⟩

-- ## Claim C4

/-- Once every step up to the encrypted mount succeeds, the mount sequence's
outcome is decided by the encryption tool's exit code as written in the source:
nonzero and in 12 or 22 gives `InvalidPassword`, other nonzero the generic
error, zero success. -/
theorem connectRest_result_eq (w : World) (mp : String) (ai : Bool)
    (pwstr : String) (raw rd : String) (uid : Int)
    (hssh : containsSub w.sshRun.stderr.toList permissionDenied = true)
    (hsftp : w.sftpRun.returncode = 0)
    (hscan : scan_listing ((splitOnChar '\n' w.sftpRun.stdout.toList).drop 1) = .ok (some uid))
    (hx : w.xdgRuntimeDir = some rd)
    (hsshfs : w.sshfsRun.returncode = 0)
    (hconf : w.pathExists (pjoin (pjoin raw ("gocryptfs_root")) ("gocryptfs.conf")) = true) :
    (connectRest w mp ai (.ok pwstr) raw).1 =
      if w.gocryptfsRun.returncode ≠ 0 then
        if w.gocryptfsRun.returncode = 12 ∨ w.gocryptfsRun.returncode = 22 then
          .error (.invalidPassword ("Invalid or empty gocryptfs password"))
        else .error (.rs3fRuntimeError ("Couldn't mount gocryptfs"))
      else .ok () := by
  unfold connectRest check_ssh_server_is_up get_remote_uid
  rw [if_pos hssh]
  simp only [bindE, liftE, emitE, pureE, raiseE, get_runtime_dir, hx, hsftp, hscan,
    hsshfs, hconf, Bool.not_true]
  norm_num
  simp [fst_ite]

/-- C4: under the hypotheses that bring connect to the encrypted mount step,
exit code 12 or 22 of the encryption tool raises `InvalidPassword`, any other
nonzero exit code raises the generic runtime error, and exit code 0 makes
connect return normally. -/
theorem C4_gocryptfs_exit_classification (w : World) (mp pwstr rd : String)
    (ai : Bool) (uid : Int)
    (h1 : check_binary_available w ("sshfs") = .ok true)
    (h2 : check_binary_available w ("gocryptfs") = .ok true)
    (hx : w.xdgRuntimeDir = some rd)
    (hmp : w.pathExists mp = false)
    (hraw : w.pathExists (pjoin rd ("rs3f_" ++ get_mount_key w mp)) = false)
    (hssh : containsSub w.sshRun.stderr.toList permissionDenied = true)
    (hsftp : w.sftpRun.returncode = 0)
    (hscan : scan_listing ((splitOnChar '\n' w.sftpRun.stdout.toList).drop 1) = .ok (some uid))
    (hsshfs : w.sshfsRun.returncode = 0)
    (hconf : w.pathExists (pjoin (pjoin (pjoin rd ("rs3f_" ++ get_mount_key w mp))
      ("gocryptfs_root")) ("gocryptfs.conf")) = true) :
    (w.gocryptfsRun.returncode = 12 ∨ w.gocryptfsRun.returncode = 22 →
      (connect w mp ai (.ok pwstr)).1 =
        .error (.invalidPassword ("Invalid or empty gocryptfs password")))
  ∧ (w.gocryptfsRun.returncode ≠ 0 →
     ¬(w.gocryptfsRun.returncode = 12 ∨ w.gocryptfsRun.returncode = 22) →
      (connect w mp ai (.ok pwstr)).1 = .error (.rs3fRuntimeError ("Couldn't mount gocryptfs")))
  ∧ (w.gocryptfsRun.returncode = 0 → (connect w mp ai (.ok pwstr)).1 = .ok ()) := by
  have hres : (connect w mp ai (.ok pwstr)).1 =
      (connectRest w mp ai (.ok pwstr) (pjoin rd ("rs3f_" ++ get_mount_key w mp))).1 := by
    rw [connect_eq w mp ai (.ok pwstr) rd h1 h2 hx, if_neg (by simp [hmp, hraw])]
    simp [bindE, pureE]
  rw [hres, connectRest_result_eq w mp ai pwstr (pjoin rd ("rs3f_" ++ get_mount_key w mp))
    rd uid hssh hsftp hscan hx hsshfs hconf]
  refine ⟨fun h12 => ?_, fun hne h12 => ?_, fun h0 => ?_⟩
  · rw [if_pos (by rcases h12 with h | h <;> omega), if_pos h12]
  · rw [if_pos hne, if_neg h12]
  · rw [if_neg (by omega)]

/-- Witness for C4: exit code 0 returns normally, 12 gives InvalidPassword,
1 gives the generic error, at concrete worlds. -/
theorem C4_gocryptfs_exit_classification_witness :
    (connect wEnv "/mnt/vol" false (.ok "secret")).1 = .ok ()
  ∧ (connect wBadPw "/mnt/vol" false (.ok "secret")).1 =
      .error (.invalidPassword ("Invalid or empty gocryptfs password"))
  ∧ (connect wBadMount "/mnt/vol" false (.ok "secret")).1 =
      .error (.rs3fRuntimeError ("Couldn't mount gocryptfs")) :=
  ⟨(C4_gocryptfs_exit_classification wEnv "/mnt/vol" "secret" "/run/user/1000" false 1000
      rfl rfl rfl rfl rfl rfl rfl rfl rfl rfl).2.2 rfl,
   (C4_gocryptfs_exit_classification wBadPw "/mnt/vol" "secret" "/run/user/1000" false 1000
      rfl rfl rfl rfl rfl rfl rfl rfl rfl rfl).1 (by decide),
   (C4_gocryptfs_exit_classification wBadMount "/mnt/vol" "secret" "/run/user/1000" false 1000
      rfl rfl rfl rfl rfl rfl rfl rfl rfl rfl).2.1 (by decide) (by decide)⟩

-- ## Claim C8

/-- C8: whenever connect reaches the identity-file step, the uid-file (exactly
the two lines mapping the local user to the remote uid and root to 0) and the
gid-file (exactly the two lines users to 999 and root to 0) are written into
the runtime directory at mount-key-namespaced paths, both are chmodded to
0o600, and all four file actions precede the raw mount invocation, which
appears nowhere earlier in the trace. -/
theorem C8_identity_files (w : World) (mp : String) (ai : Bool)
    (pw : Except PyErr String) (rd : String) (uid : Int)
    (h1 : check_binary_available w ("sshfs") = .ok true)
    (h2 : check_binary_available w ("gocryptfs") = .ok true)
    (hx : w.xdgRuntimeDir = some rd)
    (hssh : containsSub w.sshRun.stderr.toList permissionDenied = true)
    (hsftp : w.sftpRun.returncode = 0)
    (hscan : scan_listing ((splitOnChar '\n' w.sftpRun.stdout.toList).drop 1) = .ok (some uid))
    (hclean : (w.pathExists mp || w.pathExists (pjoin rd ("rs3f_" ++ get_mount_key w mp))) = true →
      (disconnect w mp).1 = .ok ()) :
    ∃ pre tail, (connect w mp ai pw).2 =
        pre ++ Event.writeFile (pjoin rd ("uidfile_" ++ get_mount_key w mp))
                 (UIDFILE w.localUsername uid) ::
               Event.writeFile (pjoin rd ("gidfile_" ++ get_mount_key w mp)) GIDFILE ::
               Event.chmod (pjoin rd ("uidfile_" ++ get_mount_key w mp)) 0o600 ::
               Event.chmod (pjoin rd ("gidfile_" ++ get_mount_key w mp)) 0o600 ::
               Event.makedirs (pjoin rd ("rs3f_" ++ get_mount_key w mp)) 0o700 ::
               Event.runSshfs :: tail
      ∧ Event.runSshfs ∉ pre
      ∧ UIDFILE w.localUsername uid = w.localUsername ++ ":" ++ toString uid ++ "\nroot:0\n"
      ∧ GIDFILE = "users:999\nroot:0\n" := by
  obtain ⟨tail, htail⟩ := connectRest_prefix_eq w mp ai pw
    (pjoin rd ("rs3f_" ++ get_mount_key w mp)) rd uid hssh hsftp hscan hx
  have hceq := connect_eq w mp ai pw rd h1 h2 hx
  by_cases hc : (w.pathExists mp || w.pathExists (pjoin rd ("rs3f_" ++ get_mount_key w mp))) = true
  · rcases hd : disconnect w mp with ⟨dres, dt⟩
    have hdres : dres = .ok () := by
      have h := hclean hc
      rw [hd] at h
      exact h
    subst hdres
    refine ⟨(Event.disconnectCall mp :: dt) ++ [Event.runSsh, Event.runSftp], tail, ?_, ?_, rfl, rfl⟩
    · rw [hceq, if_pos hc]
      simp [bindE, emitE, hd, htail]
    · intro hmem
      rcases List.mem_append.mp hmem with h | h
      · rcases List.mem_cons.mp h with h' | h'
        · simp at h'
        · have := disconnect_events_path w mp _ (by rw [hd]; exact h')
          simp [eventPath] at this
      · simp at h
  · refine ⟨[Event.runSsh, Event.runSftp], tail, ?_, by simp, rfl, rfl⟩
    rw [hceq, if_neg hc]
    simp [bindE, pureE, htail]

/-- Witness for C8 at a healthy concrete world: the identity files for uid 1000
appear before the raw mount invocation. -/
theorem C8_identity_files_witness :
    ∃ pre tail, (connect wEnv "/mnt/vol" false (.ok "secret")).2 =
        pre ++ Event.writeFile (pjoin "/run/user/1000" ("uidfile_" ++ get_mount_key wEnv "/mnt/vol"))
                 (UIDFILE wEnv.localUsername 1000) ::
               Event.writeFile (pjoin "/run/user/1000" ("gidfile_" ++ get_mount_key wEnv "/mnt/vol"))
                 GIDFILE ::
               Event.chmod (pjoin "/run/user/1000" ("uidfile_" ++ get_mount_key wEnv "/mnt/vol")) 0o600 ::
               Event.chmod (pjoin "/run/user/1000" ("gidfile_" ++ get_mount_key wEnv "/mnt/vol")) 0o600 ::
               Event.makedirs (pjoin "/run/user/1000" ("rs3f_" ++ get_mount_key wEnv "/mnt/vol")) 0o700 ::
               Event.runSshfs :: tail
      ∧ Event.runSshfs ∉ pre
      ∧ UIDFILE wEnv.localUsername 1000 = wEnv.localUsername ++ ":" ++ toString (1000 : Int) ++ "\nroot:0\n"
      ∧ GIDFILE = "users:999\nroot:0\n" :=
  C8_identity_files wEnv "/mnt/vol" false (.ok "secret") "/run/user/1000" 1000
    rfl rfl rfl rfl rfl rfl (fun hcc => absurd hcc (by decide))

end Rs3f
